import Mathlib

/-!
Shallow embedding of the `JamfScriptUploader` AutoPkg processor
(`src/JamfUploaderProcessors/JamfScriptUploader.py`).

External collaborators (filesystem reads, the key-substitution transform,
name-to-id lookup, the endpoint table, the HTTP response classifier) are
passed in as function parameters; network effects are recorded in an ordered
trace of `NetCall` events so that ordering claims can be stated. Python
truthiness of the `replace_script` input is modelled with `PyVal`; the
looked-up object id is modelled as a `Nat` where `0` is the falsy "absent"
result, matching the `obj_id=0` default and the `if obj_id:` checks in the
source.
-/

namespace JamfScriptUploader

/-- Python-style runtime values, used to model the `replace_script` input,
which may arrive as a bool, a string from an override, an int, or be unset
(`None`). -/
inductive PyVal where
  | none
  | bool (b : Bool)
  | str (s : String)
  | int (n : Int)
deriving DecidableEq

/-- Python truthiness for the modelled values: `None`, `False`, the empty
string and `0` are falsy, everything else is truthy. -/
def truthy : PyVal → Bool
  | PyVal.none => false
  | PyVal.bool b => b
  | PyVal.str s => !(s == "")
  | PyVal.int n => !(n == 0)

/-- Lines 264-266: `if not self.replace or self.replace == "False":
self.replace = False`. Anything falsy, and the exact string "False", is
collapsed to the boolean `False`; every other value is kept as is. -/
def normalizeReplace (v : PyVal) : PyVal :=
  if !truthy v || v == PyVal.str "False" then PyVal.bool false else v

/-- Network effects of one invocation, in the order they are performed:
`auth` models `handle_uapi_auth` (line 274), `lookup` models
`get_uapi_obj_id_from_name` (lines 283, 323), `httpWrite` models one
`self.curl` call of the upload loop (line 228). -/
inductive NetCall where
  | auth
  | lookup (objType objName : String)
  | httpWrite (method url : String)
deriving DecidableEq

/-- Terminal state of the upload loop: `ok` when `status_check` returned
"break" (line 230-231), `exhausted` when the `count > 5` guard raised
(lines 232-235). `attempts` is the final value of `count`; `slept` is the
total seconds spent in `sleep` calls. -/
inductive WriteOutcome where
  | ok (attempts : Nat) (slept : Int)
  | exhausted (attempts : Nat) (slept : Int)
deriving DecidableEq

/-- Final `count` value of a `WriteOutcome`. -/
def WriteOutcome.attempts : WriteOutcome → Nat
  | WriteOutcome.ok a _ => a
  | WriteOutcome.exhausted a _ => a

/-- Lines 236-239: `if int(self.sleep) > 30: sleep(int(self.sleep)) else:
sleep(30)` — the number of seconds slept in each retry iteration. -/
def effectiveSleep (s : Int) : Int := if 30 < s then s else 30

/-- Lines 220-239, the `while True` upload loop, entered with `count = 0`
and modelled here after the `count += 1` of line 222, so `c` is the current
value of `count`. Each iteration performs one `curl` call (appended to the
trace `tr`), then breaks on a successful `status_check`, then raises once
`count > 5`, and otherwise sleeps `eff` seconds and repeats.
`breakAt n` is the classifier verdict for the response of attempt `n`
(`true` iff `status_check` returns "break"). -/
def runAttempts (breakAt : Nat → Bool) (call : NetCall) (eff : Int)
    (c : Nat) (slept : Int) (tr : List NetCall) : WriteOutcome × List NetCall :=
  let tr2 := tr ++ [call]
  if breakAt c then (WriteOutcome.ok c slept, tr2)
  else if _h : 5 < c then (WriteOutcome.exhausted c slept, tr2)
  else runAttempts breakAt call eff (c + 1) (slept + eff) tr2
termination_by 6 - c
decreasing_by simp_wf; omega

/-- Python `str.upper` restricted to the ASCII case mapping, modelled
structurally over the character list so it computes in the kernel. -/
def pyUpper (s : String) : String := String.mk (s.data.map Char.toUpper)

/-- `os.path.basename`: everything after the last "/" (empty when the path
ends in "/"), modelled structurally over the character list. -/
def basename (p : String) : String :=
  String.mk (p.data.foldl (fun acc ch => if ch == '/' then [] else acc ++ [ch]) [])

/-- Python `"/" in path` (line 302), modelled over the character list. -/
def containsSlash (p : String) : Bool := p.data.any (fun ch => ch == '/')

/-- The `script_data` dictionary built at lines 181-198. -/
structure ScriptData where
  name : String
  info : String
  notes : String
  priority : String
  categoryId : String
  categoryName : String
  parameter4 : String
  parameter5 : String
  parameter6 : String
  parameter7 : String
  parameter8 : String
  parameter9 : String
  parameter10 : String
  parameter11 : String
  osRequirements : String
  scriptContents : String
deriving DecidableEq

/-- Everything `upload_script` fixed before and during its loop: the built
record, the path it read, the request method and url (lines 213-218, 227),
and the loop counters. -/
structure UploadRun where
  data : ScriptData
  path : String
  method : String
  url : String
  attempts : Nat
  slept : Int
deriving DecidableEq

/-- Result of `upload_script` (lines 142-240): `scriptMissing` is the
`ProcessorError` of line 171, `failed` the `ProcessorError` of line 235
after exhausting the retries, `uploaded` the successful return of
line 240. -/
inductive UploadResult where
  | scriptMissing
  | failed (run : UploadRun)
  | uploaded (run : UploadRun)
deriving DecidableEq

/-- The run data of an `UploadResult` whose loop was entered. -/
def UploadResult.runOf : UploadResult → Option UploadRun
  | UploadResult.scriptMissing => Option.none
  | UploadResult.failed run => some run
  | UploadResult.uploaded run => some run

/-- Lines 142-240, `upload_script`. `fs` models the filesystem
(`os.path.exists` + `open().read()`), `subst` the external
`substitute_assignable_keys`, `endpointFor` the external `api_endpoints`
table, `breakAt` the per-attempt `status_check` verdict. Returns the
result together with the trace of `curl` calls made by the loop. -/
def uploadScript (fs : String → Option String) (subst : String → String)
    (endpointFor : String → String) (breakAt : Nat → Bool)
    (jamfUrl scriptName scriptPath categoryId scriptCategory scriptInfo
      scriptNotes scriptPriority p4 p5 p6 p7 p8 p9 p10 p11 osReq : String)
    (sleepSetting : Int) (objId : Nat) : UploadResult × List NetCall :=
  match fs scriptPath with
  | Option.none => (UploadResult.scriptMissing, [])
  | some raw =>
    let scriptContents := subst raw
    let priority := if scriptPriority ≠ "" then pyUpper scriptPriority else scriptPriority
    let data : ScriptData :=
      { name := scriptName, info := scriptInfo, notes := scriptNotes,
        priority := priority, categoryId := categoryId,
        categoryName := scriptCategory, parameter4 := p4, parameter5 := p5,
        parameter6 := p6, parameter7 := p7, parameter8 := p8, parameter9 := p9,
        parameter10 := p10, parameter11 := p11, osRequirements := osReq,
        scriptContents := scriptContents }
    let url :=
      if objId ≠ 0 then jamfUrl ++ "/" ++ endpointFor "script" ++ "/" ++ toString objId
      else jamfUrl ++ "/" ++ endpointFor "script"
    let method := if objId ≠ 0 then "PUT" else "POST"
    match runAttempts breakAt (NetCall.httpWrite method url)
        (effectiveSleep sleepSetting) 1 0 [] with
    | (WriteOutcome.ok a s, tr) =>
      (UploadResult.uploaded ⟨data, scriptPath, method, url, a, s⟩, tr)
    | (WriteOutcome.exhausted a s, tr) =>
      (UploadResult.failed ⟨data, scriptPath, method, url, a, s⟩, tr)

/-- The `jamfscriptuploader_summary_result` dictionary of lines 376-412
(its `data` part; the fixed `summary_text` and `report_fields` carry no
per-run information). -/
structure SummaryData where
  script : String
  path : String
  category : String
  priority : String
  osReq : String
  info : String
  notes : String
  p4 : String
  p5 : String
  p6 : String
  p7 : String
  p8 : String
  p9 : String
  p10 : String
  p11 : String
deriving DecidableEq

/-- The AutoPkg environment as read by `main` at lines 244-263 together
with the keys it may write (lines 269-270, 373-376). A missing string key
is modelled as `""` (the declared defaults are empty and `if not x:` treats
`None` and `""` alike); `replace` keeps full Python-value generality since
lines 264-266 inspect it; `sleepSetting` is the `int(self.sleep)` value. -/
structure Env where
  jssUrl : String
  apiUsername : String
  apiPassword : String
  scriptPath : String
  scriptName : String
  scriptCategory : String
  scriptPriority : String
  osRequirements : String
  scriptInfo : String
  scriptNotes : String
  p4 : String
  p5 : String
  p6 : String
  p7 : String
  p8 : String
  p9 : String
  p10 : String
  p11 : String
  replace : PyVal
  sleepSetting : Int
  summaryResult : Option SummaryData
  scriptUploaded : Option Bool
deriving DecidableEq

/-- Terminal result of one `main` invocation: `fileNotFound` is the
`ProcessorError` of line 307, `scriptMissing` and `uploadFailed` propagate
from `upload_script`, `skipped` is the early `return` of line 346,
`uploaded` the normal completion at line 412. -/
inductive MainResult where
  | fileNotFound
  | scriptMissing
  | uploadFailed (run : UploadRun)
  | skipped
  | uploaded (run : UploadRun)
deriving DecidableEq

/-- The run data of a `MainResult` whose upload loop was entered. -/
def MainResult.runOf : MainResult → Option UploadRun
  | MainResult.uploadFailed run => some run
  | MainResult.uploaded run => some run
  | _ => Option.none

/-- Lines 242-412, `main`. Parameters model the external collaborators:
`fs` the filesystem, `subst` the key substitution, `lookup` the
`get_uapi_obj_id_from_name` name-to-id lookup (returning `0`, a falsy
value, for "absent"), `getPathToFile` the `get_path_to_file` search for
bare filenames, `endpointFor` the endpoint table, `breakAt` the
per-attempt `status_check` verdict. Returns the final environment, the
ordered network-call trace, and the terminal result. -/
def mainRun (fs : String → Option String) (subst : String → String)
    (lookup : String → String → Nat) (getPathToFile : String → Option String)
    (endpointFor : String → String) (breakAt : Nat → Bool)
    (env : Env) : Env × List NetCall × MainResult :=
  -- lines 264-266: replace-flag truthiness normalization
  let replace := normalizeReplace env.replace
  -- lines 268-270: clear any pre-existing summary result
  let env1 : Env := { env with summaryResult := Option.none }
  -- line 274: obtain the credentials (first network call)
  let calls0 : List NetCall := [NetCall.auth]
  -- lines 277-299: category lookup with "-1" sentinel fallback
  let categoryId :=
    if env.scriptCategory ≠ "" then
      if lookup "category" env.scriptCategory = 0 then "-1"
      else toString (lookup "category" env.scriptCategory)
    else "-1"
  let scriptCategory := if env.scriptCategory ≠ "" then env.scriptCategory else ""
  let calls1 :=
    if env.scriptCategory ≠ "" then
      calls0 ++ [NetCall.lookup "category" env.scriptCategory]
    else calls0
  -- lines 301-307: resolve files given with no path
  match (if containsSlash env.scriptPath then some env.scriptPath
         else getPathToFile env.scriptPath) with
  | Option.none => (env1, calls1, MainResult.fileNotFound)
  | some path =>
    -- lines 310-311: derive the name from the filename when unset
    let name := if env.scriptName = "" then basename path else env.scriptName
    -- lines 313-328: check for an existing script
    let objId := lookup "script" name
    let calls2 := calls1 ++ [NetCall.lookup "script" name]
    -- lines 330-346: skip when the object exists and replace is not set
    if objId ≠ 0 ∧ truthy replace = false then (env1, calls2, MainResult.skipped)
    else
      -- lines 348-369: post the script
      let up := uploadScript fs subst endpointFor breakAt env.jssUrl name path
        categoryId scriptCategory env.scriptInfo env.scriptNotes
        env.scriptPriority env.p4 env.p5 env.p6 env.p7 env.p8 env.p9 env.p10
        env.p11 env.osRequirements env.sleepSetting objId
      let calls3 := calls2 ++ up.2
      match up.1 with
      | UploadResult.scriptMissing => (env1, calls3, MainResult.scriptMissing)
      | UploadResult.failed run => (env1, calls3, MainResult.uploadFailed run)
      | UploadResult.uploaded run =>
        -- lines 372-412: record the outputs and the summary
        let summary : SummaryData :=
          { script := name, path := path, category := scriptCategory,
            priority := env.scriptPriority, osReq := env.osRequirements,
            info := env.scriptInfo, notes := env.scriptNotes,
            p4 := env.p4, p5 := env.p5, p6 := env.p6, p7 := env.p7,
            p8 := env.p8, p9 := env.p9, p10 := env.p10, p11 := env.p11 }
        let env2 : Env :=
          { env1 with
              scriptName := name
              scriptUploaded := some true
              summaryResult := some summary }
        (env2, calls3, MainResult.uploaded run)

/-- The upsert decision of the spec, as implemented by the branching of
lines 330-346 (skip or proceed) together with lines 213-227 of
`upload_script` (a truthy id means update via PUT, a falsy one create via
POST), after the replace-flag normalization of lines 264-266. -/
inductive Decision where
  | skip
  | create
  | update (id : Nat)
deriving DecidableEq

/-- Decision function: object present (truthy id) and replace truthy means
update, present and replace falsy means skip, absent means create. -/
def upsertDecision (objId : Nat) (replace : PyVal) : Decision :=
  if objId ≠ 0 then
    if truthy (normalizeReplace replace) then Decision.update objId else Decision.skip
  else Decision.create

/-! Concrete instances used by witnesses and counterexamples. -/

/-- Baseline concrete environment: a path with a directory separator, an
explicit script name, no category, replace unset (the declared default
`False`), sleep `0`. -/
def envBase : Env :=
  { jssUrl := "https://example.jamfcloud.com", apiUsername := "api",
    apiPassword := "secret", scriptPath := "/tmp/install.sh",
    scriptName := "myscript", scriptCategory := "", scriptPriority := "AFTER",
    osRequirements := "", scriptInfo := "", scriptNotes := "", p4 := "",
    p5 := "", p6 := "", p7 := "", p8 := "", p9 := "", p10 := "", p11 := "",
    replace := PyVal.bool false, sleepSetting := 0,
    summaryResult := Option.none, scriptUploaded := Option.none }

/-- Environment whose script file is named only by a dangling path, with no
explicit script name, so the derived name is empty. -/
def envEmptyName : Env := { envBase with scriptPath := "/s/", scriptName := "" }

/-- Environment that supplies a category name. -/
def envCat : Env := { envBase with scriptCategory := "Productivity" }

/-- Environment with a pre-existing summary result and a truthy
`script_uploaded` left over from an earlier invocation. -/
def envStale : Env :=
  { envBase with
      summaryResult := some
        { script := "old", path := "/old.sh", category := "", priority := "AFTER",
          osReq := "", info := "", notes := "", p4 := "", p5 := "", p6 := "",
          p7 := "", p8 := "", p9 := "", p10 := "", p11 := "" }
      scriptUploaded := some true }

/-- Run produced by a first-attempt-success upload of the file
"/tmp/install.sh" holding "echo ok", with priority supplied as "after". -/
def runExample : UploadRun :=
  ⟨⟨"myscript", "", "", "AFTER", "-1", "", "", "", "", "", "", "", "", "", "",
      "echo ok"⟩,
    "/tmp/install.sh", "POST", "https://example.jamfcloud.com/api/v1/scripts",
    1, 0⟩

/-! Helper lemmas about the retry loop. -/

/-- With a classifier that never breaks, the loop entered at `count = 1`
performs attempts 1 through 6, sleeps 5 times, and exhausts. -/
theorem runAttempts_exhausts (breakAt : Nat → Bool) (hb : ∀ n, breakAt n = false)
    (call : NetCall) (eff : Int) :
    runAttempts breakAt call eff 1 0 [] =
      (WriteOutcome.exhausted 6 (5 * eff), List.replicate 6 call) := by
  simp [runAttempts, hb]
  ring

/-- With a classifier that breaks on the first attempt, the loop performs
exactly one attempt and never sleeps. -/
theorem runAttempts_first (breakAt : Nat → Bool) (hb : breakAt 1 = true)
    (call : NetCall) (eff : Int) :
    runAttempts breakAt call eff 1 0 [] = (WriteOutcome.ok 1 0, [call]) := by
  simp [runAttempts, hb]

/-- Truthiness of a modelled boolean is the boolean itself. -/
theorem truthy_bool (b : Bool) : truthy (PyVal.bool b) = b := rfl

/-! Claim theorems. -/

/-- C1, counterexample: with an always-Retryable classifier the
`upload_script` loop does not stop after 5 attempts — on this concrete
input it performs a 6th HTTP write (the trace holds 6 write calls, the
final `count` is 6) before raising the fatal error, refuting the claim
that exactly 5 attempts are made and no 6th attempt ever happens. -/
theorem retry_bound_counterexample :
    uploadScript (fun _ => some "echo ok") (fun s => s)
        (fun _ => "api/v1/scripts") (fun _ => false)
        "https://example.jamfcloud.com" "test.sh" "/tmp/test.sh" "-1" "" "" ""
        "" "" "" "" "" "" "" "" "" "" 0 0 =
      (UploadResult.failed
        ⟨⟨"test.sh", "", "", "", "-1", "", "", "", "", "", "", "", "", "", "",
            "echo ok"⟩,
          "/tmp/test.sh", "POST", "https://example.jamfcloud.com/api/v1/scripts",
          6, 150⟩,
        List.replicate 6 (NetCall.httpWrite "POST"
          "https://example.jamfcloud.com/api/v1/scripts")) := by
  simp [uploadScript, runAttempts, effectiveSleep]

/-- C1 (amended): with a classifier that always returns Retryable, the
Retrying Writer makes exactly 6 HTTP write attempts — one more than the 5
stated — sleeping the effective backoff 5 times between attempts, and then
fails with the fatal upload-failed error; it never makes a 7th attempt. -/
theorem retry_exhaustion_makes_six_attempts
    (fs : String → Option String) (subst : String → String)
    (endpointFor : String → String) (breakAt : Nat → Bool)
    (jamfUrl scriptName scriptPath categoryId scriptCategory scriptInfo
      scriptNotes scriptPriority p4 p5 p6 p7 p8 p9 p10 p11 osReq : String)
    (sleepSetting : Int) (objId : Nat) (raw : String)
    (hfs : fs scriptPath = some raw) (hb : ∀ n, breakAt n = false) :
    ∃ run : UploadRun,
      uploadScript fs subst endpointFor breakAt jamfUrl scriptName scriptPath
          categoryId scriptCategory scriptInfo scriptNotes scriptPriority p4 p5
          p6 p7 p8 p9 p10 p11 osReq sleepSetting objId =
        (UploadResult.failed run,
          List.replicate 6 (NetCall.httpWrite run.method run.url)) ∧
      run.attempts = 6 ∧ run.slept = 5 * effectiveSleep sleepSetting := by
  unfold uploadScript
  simp only [hfs, runAttempts_exhausts breakAt hb]
  exact ⟨_, rfl, rfl, rfl⟩

/-- C1 witness: the amended theorem applied at a concrete always-Retryable
classifier and a one-line script file. -/
theorem retry_exhaustion_makes_six_attempts_witness :
    ((fun _ : String => some "echo ok") "/tmp/test.sh" = some "echo ok") ∧
    (∀ n : Nat, (fun _ : Nat => false) n = false) ∧
    (∃ run : UploadRun,
      uploadScript (fun _ => some "echo ok") (fun s => s)
          (fun _ => "api/v1/scripts") (fun _ => false)
          "https://example.jamfcloud.com" "test.sh" "/tmp/test.sh" "-1" "" ""
          "" "" "" "" "" "" "" "" "" "" "" 0 0 =
        (UploadResult.failed run,
          List.replicate 6 (NetCall.httpWrite run.method run.url)) ∧
      run.attempts = 6 ∧ run.slept = 5 * effectiveSleep 0) :=
  ⟨rfl, fun _ => rfl,
    retry_exhaustion_makes_six_attempts (fun _ => some "echo ok") (fun s => s)
      (fun _ => "api/v1/scripts") (fun _ => false)
      "https://example.jamfcloud.com" "test.sh" "/tmp/test.sh" "-1" "" "" "" ""
      "" "" "" "" "" "" "" "" "" 0 0 "echo ok" rfl (fun _ => rfl)⟩

/-- C3: the replace flag yields Skip for an existing object exactly on the
false-like values — falsy Python values together with the string form
"False" of the false literal — and yields Update on every other value. -/
theorem replace_flag_truthiness (v : PyVal) (id : Nat) (hid : id ≠ 0) :
    (upsertDecision id v = Decision.skip ↔
      (truthy v = false ∨ v = PyVal.str "False")) ∧
    (upsertDecision id v = Decision.update id ↔
      (truthy v = true ∧ v ≠ PyVal.str "False")) := by
  unfold upsertDecision normalizeReplace
  by_cases h1 : truthy v <;> by_cases h2 : v = PyVal.str "False" <;>
    simp [hid, h1, h2, truthy_bool]

/-- C3 witness: the decision at id 17 for the string "False" is Skip, and
for the truthy string "false" (lower case is not recognised) it is
Update. -/
theorem replace_flag_truthiness_witness :
    (17 : Nat) ≠ 0 ∧
    upsertDecision 17 (PyVal.str "False") = Decision.skip ∧
    upsertDecision 17 (PyVal.str "false") = Decision.update 17 :=
  ⟨by decide,
    (replace_flag_truthiness (PyVal.str "False") 17 (by decide)).1.mpr
      (Or.inr rfl),
    (replace_flag_truthiness (PyVal.str "false") 17 (by decide)).2.mpr
      (by decide)⟩

/-- C2, counterexample: with a missing script file (the filesystem resolves
no path) the invocation does end in the fatal file error, but only after
two network calls — authentication and the existence lookup — have been
made, refuting the claim that the abort happens before any network call. -/
theorem file_missing_counterexample :
    (mainRun (fun _ => Option.none) (fun s => s) (fun _ _ => 0)
        (fun _ => Option.none) (fun _ => "api/v1/scripts") (fun _ => false)
        envBase).2 =
      ([NetCall.auth, NetCall.lookup "script" "myscript"],
        MainResult.scriptMissing) := by
  decide

/-- C2 (amended): if the script file path does not resolve to an existing
file, the invocation makes no HTTP write and ends in the fatal
file-missing error, the bare-filename error, or — when an existing object
and an unset replace flag short-circuit first — the Skip outcome; but the
fatal error is only raised after network calls have been made:
authentication (and any lookups) precede it. -/
theorem file_missing_aborts_after_network_calls
    (fs : String → Option String) (subst : String → String)
    (lookup : String → String → Nat) (getPathToFile : String → Option String)
    (endpointFor : String → String) (breakAt : Nat → Bool) (env : Env)
    (hfs : ∀ p, fs p = Option.none) :
    ((mainRun fs subst lookup getPathToFile endpointFor breakAt env).2.2 =
          MainResult.scriptMissing ∨
      (mainRun fs subst lookup getPathToFile endpointFor breakAt env).2.2 =
          MainResult.fileNotFound ∨
      (mainRun fs subst lookup getPathToFile endpointFor breakAt env).2.2 =
          MainResult.skipped) ∧
    (∀ m u, NetCall.httpWrite m u ∉
      (mainRun fs subst lookup getPathToFile endpointFor breakAt env).2.1) ∧
    NetCall.auth ∈
      (mainRun fs subst lookup getPathToFile endpointFor breakAt env).2.1 := by
  unfold mainRun uploadScript
  simp only [hfs]
  by_cases hc : env.scriptCategory = "" <;>
    rcases hres : (if containsSlash env.scriptPath then some env.scriptPath
        else getPathToFile env.scriptPath) with _ | path <;>
    simp only [hc, hres] <;>
    split_ifs <;> simp

/-- C2 witness: the amended theorem applied at a concrete empty
filesystem. -/
theorem file_missing_aborts_after_network_calls_witness :
    (∀ p : String, (fun _ : String => (Option.none : Option String)) p =
      Option.none) ∧
    NetCall.auth ∈
      (mainRun (fun _ => Option.none) (fun s => s) (fun _ _ => 0)
        (fun _ => Option.none) (fun _ => "api/v1/scripts") (fun _ => false)
        envBase).2.1 :=
  ⟨fun _ => rfl,
    (file_missing_aborts_after_network_calls (fun _ => Option.none)
      (fun s => s) (fun _ _ => 0) (fun _ => Option.none)
      (fun _ => "api/v1/scripts") (fun _ => false) envBase
      (fun _ => rfl)).2.2⟩

/-- C5: when the existence resolver returns a present id (a non-zero
lookup result) and the replace flag normalizes to false, the decision is
Skip for every such id, `main` ends in the successful skipped outcome, and
the trace holds no HTTP write. -/
theorem skip_law (fs : String → Option String) (subst : String → String)
    (lookup : String → String → Nat) (getPathToFile : String → Option String)
    (endpointFor : String → String) (breakAt : Nat → Bool) (env : Env)
    (h1 : containsSlash env.scriptPath = true)
    (h2 : lookup "script"
      (if env.scriptName = "" then basename env.scriptPath
        else env.scriptName) ≠ 0)
    (h3 : truthy (normalizeReplace env.replace) = false) :
    (∀ id : Nat, id ≠ 0 → upsertDecision id env.replace = Decision.skip) ∧
    (mainRun fs subst lookup getPathToFile endpointFor breakAt env).2.2 =
      MainResult.skipped ∧
    (∀ m u, NetCall.httpWrite m u ∉
      (mainRun fs subst lookup getPathToFile endpointFor breakAt env).2.1) := by
  refine ⟨fun id hid => ?_, ?_⟩
  · unfold upsertDecision
    simp [hid, h3]
  · unfold mainRun
    simp only [h1, if_true, ne_eq, h2, not_false_iff, h3, and_true, true_and,
      ite_true]
    by_cases hc : env.scriptCategory = ""
    · simp [hc, h2, h3]
    · simp [hc, h2, h3]

/-- C5 witness: the skip law applied at a resolver that finds id 17 and a
replace flag holding the boolean False. -/
theorem skip_law_witness :
    containsSlash envBase.scriptPath = true ∧
    truthy (normalizeReplace envBase.replace) = false ∧
    (mainRun (fun _ => some "echo ok") (fun s => s) (fun _ _ => 17)
      (fun _ => Option.none) (fun _ => "api/v1/scripts") (fun _ => true)
      envBase).2.2 = MainResult.skipped :=
  ⟨by decide, by decide,
    (skip_law (fun _ => some "echo ok") (fun s => s) (fun _ _ => 17)
      (fun _ => Option.none) (fun _ => "api/v1/scripts") (fun _ => true)
      envBase (by decide) (by decide) (by decide)).2.1⟩

/-- C6: with a present id and a truthy replace flag the decision is
Update(id); the writer then issues its HTTP writes with method PUT on the
endpoint with the id appended — one write per loop iteration, here a
single one since the classifier accepts the first attempt — while an
absent id (0) yields POST on the endpoint without an id. -/
theorem replace_law_put_post (fs : String → Option String)
    (subst : String → String) (endpointFor : String → String)
    (breakAt : Nat → Bool)
    (jamfUrl scriptName scriptPath categoryId scriptCategory scriptInfo
      scriptNotes scriptPriority p4 p5 p6 p7 p8 p9 p10 p11 osReq : String)
    (sleepSetting : Int) (id : Nat) (v : PyVal) (raw : String)
    (hid : id ≠ 0) (hrep : truthy (normalizeReplace v) = true)
    (hfs : fs scriptPath = some raw) (hb : breakAt 1 = true) :
    upsertDecision id v = Decision.update id ∧
    (∃ run : UploadRun,
      uploadScript fs subst endpointFor breakAt jamfUrl scriptName scriptPath
          categoryId scriptCategory scriptInfo scriptNotes scriptPriority p4 p5
          p6 p7 p8 p9 p10 p11 osReq sleepSetting id =
        (UploadResult.uploaded run,
          [NetCall.httpWrite "PUT"
            (jamfUrl ++ "/" ++ endpointFor "script" ++ "/" ++ toString id)]) ∧
      run.method = "PUT" ∧
      run.url = jamfUrl ++ "/" ++ endpointFor "script" ++ "/" ++ toString id ∧
      run.attempts = 1) ∧
    (∃ run : UploadRun,
      uploadScript fs subst endpointFor breakAt jamfUrl scriptName scriptPath
          categoryId scriptCategory scriptInfo scriptNotes scriptPriority p4 p5
          p6 p7 p8 p9 p10 p11 osReq sleepSetting 0 =
        (UploadResult.uploaded run,
          [NetCall.httpWrite "POST" (jamfUrl ++ "/" ++ endpointFor "script")]) ∧
      run.method = "POST" ∧
      run.url = jamfUrl ++ "/" ++ endpointFor "script" ∧
      run.attempts = 1) := by
  refine ⟨?_, ?_, ?_⟩
  · unfold upsertDecision
    simp [hid, hrep]
  · unfold uploadScript
    simp only [hfs, runAttempts_first breakAt hb, ne_eq, hid, not_false_iff,
      ite_true, if_true]
    exact ⟨_, rfl, rfl, rfl, rfl⟩
  · unfold uploadScript
    simp only [hfs, runAttempts_first breakAt hb, ne_eq, not_true, ite_false,
      if_false]
    exact ⟨_, rfl, rfl, rfl, rfl⟩

/-- C6 witness: the replace law applied at id 17 with a truthy replace
value and a first-attempt success classifier. -/
theorem replace_law_put_post_witness :
    (17 : Nat) ≠ 0 ∧
    truthy (normalizeReplace (PyVal.bool true)) = true ∧
    (∃ run : UploadRun,
      uploadScript (fun _ => some "echo ok") (fun s => s)
          (fun _ => "api/v1/scripts") (fun _ => true)
          "https://example.jamfcloud.com" "myscript" "/tmp/install.sh" "-1" ""
          "" "" "" "" "" "" "" "" "" "" "" "" 0 17 =
        (UploadResult.uploaded run,
          [NetCall.httpWrite "PUT"
            ("https://example.jamfcloud.com" ++ "/" ++
              (fun _ : String => "api/v1/scripts") "script" ++ "/" ++
              toString 17)]) ∧
      run.method = "PUT" ∧
      run.url = "https://example.jamfcloud.com" ++ "/" ++
        (fun _ : String => "api/v1/scripts") "script" ++ "/" ++ toString 17 ∧
      run.attempts = 1) :=
  ⟨by decide, by decide,
    (replace_law_put_post (fun _ => some "echo ok") (fun s => s)
      (fun _ => "api/v1/scripts") (fun _ => true)
      "https://example.jamfcloud.com" "myscript" "/tmp/install.sh" "-1" "" ""
      "" "" "" "" "" "" "" "" "" "" "" 0 17 (PyVal.bool true) "echo ok"
      (by decide) (by decide) rfl rfl).2.1⟩

/-- C7: when a category name is supplied and its lookup returns the absent
result, the record handed to the writer carries the sentinel categoryId
"-1" — regardless of the supplied category name — and the invocation
continues to a successful upload rather than aborting. -/
theorem category_fallback_sentinel (fs : String → Option String)
    (subst : String → String) (lookup : String → String → Nat)
    (getPathToFile : String → Option String) (endpointFor : String → String)
    (breakAt : Nat → Bool) (env : Env) (raw : String)
    (hcat : env.scriptCategory ≠ "")
    (hlk : lookup "category" env.scriptCategory = 0)
    (h1 : containsSlash env.scriptPath = true)
    (hobj : lookup "script"
      (if env.scriptName = "" then basename env.scriptPath
        else env.scriptName) = 0)
    (hfs : fs env.scriptPath = some raw)
    (hb : breakAt 1 = true) :
    ∃ run : UploadRun,
      (mainRun fs subst lookup getPathToFile endpointFor breakAt env).2.2 =
          MainResult.uploaded run ∧
      run.data.categoryId = "-1" := by
  unfold mainRun uploadScript
  simp only [h1, if_true, hcat, hlk, ite_true, ite_false, if_neg, hobj, hfs,
    runAttempts_first breakAt hb, ne_eq, not_true, false_and, if_false]
  simp [hobj, runAttempts_first breakAt hb]

/-- C7 witness: the category fallback applied at a supplied category name
whose lookup finds nothing. -/
theorem category_fallback_sentinel_witness :
    envCat.scriptCategory ≠ "" ∧
    (∃ run : UploadRun,
      (mainRun (fun _ => some "echo ok") (fun s => s) (fun _ _ => 0)
          (fun _ => Option.none) (fun _ => "api/v1/scripts") (fun _ => true)
          envCat).2.2 =
        MainResult.uploaded run ∧
      run.data.categoryId = "-1") :=
  ⟨by decide,
    category_fallback_sentinel (fun _ => some "echo ok") (fun s => s)
      (fun _ _ => 0) (fun _ => Option.none) (fun _ => "api/v1/scripts")
      (fun _ => true) envCat "echo ok" (by decide) rfl (by decide) (by decide)
      rfl rfl⟩

/-- C4: the effective inter-attempt sleep is the maximum of the configured
sleep and the 30-second floor; in particular a configured 5 yields 30 and a
configured 45 yields 45. -/
theorem backoff_floor_is_max :
    ∀ s : Int, effectiveSleep s = max s 30 ∧
      effectiveSleep 5 = 30 ∧ effectiveSleep 45 = 45 := by
  intro s
  refine ⟨?_, by decide, by decide⟩
  unfold effectiveSleep
  split <;> omega

/-- C8: the record handed to the writer carries the priority upper-cased
when the input priority is non-empty and unchanged (empty) when it is
empty, with no default injected; the concrete input "after" upper-cases to
"AFTER". -/
theorem priority_upper_cased (fs : String → Option String)
    (subst : String → String) (endpointFor : String → String)
    (breakAt : Nat → Bool)
    (jamfUrl scriptName scriptPath categoryId scriptCategory scriptInfo
      scriptNotes scriptPriority p4 p5 p6 p7 p8 p9 p10 p11 osReq : String)
    (sleepSetting : Int) (objId : Nat) (run : UploadRun)
    (h : (uploadScript fs subst endpointFor breakAt jamfUrl scriptName
        scriptPath categoryId scriptCategory scriptInfo scriptNotes
        scriptPriority p4 p5 p6 p7 p8 p9 p10 p11 osReq sleepSetting
        objId).1.runOf = some run) :
    (scriptPriority ≠ "" → run.data.priority = pyUpper scriptPriority) ∧
    (scriptPriority = "" → run.data.priority = "") ∧
    pyUpper "after" = "AFTER" := by
  unfold uploadScript at h
  rcases hfs : fs scriptPath with _ | raw
  · simp only [hfs, UploadResult.runOf] at h
    exact Option.noConfusion h
  · simp only [hfs] at h
    split at h <;>
      simp only [UploadResult.runOf, Option.some.injEq] at h <;>
      subst h <;>
      refine ⟨fun hp => ?_, fun hp => ?_, by decide⟩ <;>
      simp [hp]

/-- C8 witness: the priority theorem applied at input priority "after",
whose transmitted value is "AFTER". -/
theorem priority_upper_cased_witness :
    (uploadScript (fun _ => some "echo ok") (fun s => s)
        (fun _ => "api/v1/scripts") (fun _ => true)
        "https://example.jamfcloud.com" "myscript" "/tmp/install.sh" "-1" ""
        "" "" "after" "" "" "" "" "" "" "" "" "" 0 0).1.runOf =
      some runExample ∧
    ("after" ≠ "" → runExample.data.priority = pyUpper "after") :=
  ⟨by simp [uploadScript, runAttempts, UploadResult.runOf, runExample] <;> decide,
    (priority_upper_cased (fun _ => some "echo ok") (fun s => s)
      (fun _ => "api/v1/scripts") (fun _ => true)
      "https://example.jamfcloud.com" "myscript" "/tmp/install.sh" "-1" "" ""
      "" "after" "" "" "" "" "" "" "" "" "" 0 0 runExample
      (by simp [uploadScript, runAttempts, UploadResult.runOf, runExample] <;>
        decide)).1⟩

/-- C9, counterexample: a run that reaches an HTTP write with an empty
script name (the path "/s/" has an empty basename and no explicit name was
given) and empty script contents (the file on disk is empty), refuting the
claim that name and contents are always non-empty when a write is
attempted. -/
theorem nonempty_write_counterexample :
    (mainRun (fun _ => some "") (fun s => s) (fun _ _ => 0)
        (fun _ => Option.none) (fun _ => "api/v1/scripts") (fun _ => true)
        envEmptyName).2.2 =
      MainResult.uploaded
        ⟨⟨"", "", "", "AFTER", "-1", "", "", "", "", "", "", "", "", "", "",
            ""⟩,
          "/s/", "POST", "https://example.jamfcloud.com/api/v1/scripts", 1,
          0⟩ ∧
    NetCall.httpWrite "POST" "https://example.jamfcloud.com/api/v1/scripts" ∈
      (mainRun (fun _ => some "") (fun s => s) (fun _ _ => 0)
        (fun _ => Option.none) (fun _ => "api/v1/scripts") (fun _ => true)
        envEmptyName).2.1 := by
  constructor <;>
    simp [mainRun, uploadScript, runAttempts, containsSlash, basename, pyUpper,
      envEmptyName, envBase]

/-- C9 (amended): whenever the writer attempts an HTTP write, the record's
contents are the key-substituted text of a file that the filesystem
resolved at read time, and the recorded path is the resolved script path;
the record's name and contents are, however, not guaranteed non-empty. -/
theorem write_contents_provenance (fs : String → Option String)
    (subst : String → String) (endpointFor : String → String)
    (breakAt : Nat → Bool)
    (jamfUrl scriptName scriptPath categoryId scriptCategory scriptInfo
      scriptNotes scriptPriority p4 p5 p6 p7 p8 p9 p10 p11 osReq : String)
    (sleepSetting : Int) (objId : Nat) (run : UploadRun)
    (h : (uploadScript fs subst endpointFor breakAt jamfUrl scriptName
        scriptPath categoryId scriptCategory scriptInfo scriptNotes
        scriptPriority p4 p5 p6 p7 p8 p9 p10 p11 osReq sleepSetting
        objId).1.runOf = some run) :
    ∃ raw, fs scriptPath = some raw ∧
      run.data.scriptContents = subst raw ∧
      run.path = scriptPath := by
  unfold uploadScript at h
  rcases hfs : fs scriptPath with _ | raw
  · simp only [hfs, UploadResult.runOf] at h
    exact Option.noConfusion h
  · simp only [hfs] at h
    split at h <;>
      simp only [UploadResult.runOf, Option.some.injEq] at h <;>
      subst h <;>
      exact ⟨raw, rfl, rfl, rfl⟩

/-- C9 witness: the provenance theorem applied at a file holding
"echo ok". -/
theorem write_contents_provenance_witness :
    (uploadScript (fun _ => some "echo ok") (fun s => s)
        (fun _ => "api/v1/scripts") (fun _ => true)
        "https://example.jamfcloud.com" "myscript" "/tmp/install.sh" "-1" ""
        "" "" "after" "" "" "" "" "" "" "" "" "" 0 0).1.runOf =
      some runExample ∧
    (∃ raw, (fun _ : String => some "echo ok") "/tmp/install.sh" = some raw ∧
      runExample.data.scriptContents = (fun s : String => s) raw ∧
      runExample.path = "/tmp/install.sh") :=
  ⟨by simp [uploadScript, runAttempts, UploadResult.runOf, runExample] <;> decide,
    write_contents_provenance (fun _ => some "echo ok") (fun s => s)
      (fun _ => "api/v1/scripts") (fun _ => true)
      "https://example.jamfcloud.com" "myscript" "/tmp/install.sh" "-1" "" ""
      "" "after" "" "" "" "" "" "" "" "" "" 0 0 runExample
      (by simp [uploadScript, runAttempts, UploadResult.runOf, runExample] <;>
        decide)⟩

/-- C10: the pre-existing summary-result entry is deleted on every
invocation (whenever the run does not end in an upload, the final summary
is absent), and a Skip outcome returns early without touching the
script-name output, the uploaded flag, or the summary: after a skipped
invocation no summary result is present. -/
theorem skip_frame_no_summary (fs : String → Option String)
    (subst : String → String) (lookup : String → String → Nat)
    (getPathToFile : String → Option String) (endpointFor : String → String)
    (breakAt : Nat → Bool) (env : Env)
    (h1 : containsSlash env.scriptPath = true)
    (h2 : lookup "script"
      (if env.scriptName = "" then basename env.scriptPath
        else env.scriptName) ≠ 0)
    (h3 : truthy (normalizeReplace env.replace) = false) :
    (mainRun fs subst lookup getPathToFile endpointFor breakAt env).2.2 =
      MainResult.skipped ∧
    (mainRun fs subst lookup getPathToFile endpointFor breakAt env).1.summaryResult =
      Option.none ∧
    (mainRun fs subst lookup getPathToFile endpointFor breakAt env).1.scriptName =
      env.scriptName ∧
    (mainRun fs subst lookup getPathToFile endpointFor breakAt env).1.scriptUploaded =
      env.scriptUploaded ∧
    (∀ (fs2 : String → Option String) (subst2 : String → String)
      (lookup2 : String → String → Nat) (g2 : String → Option String)
      (e2 : String → String) (b2 : Nat → Bool) (env2 : Env),
      (mainRun fs2 subst2 lookup2 g2 e2 b2 env2).1.summaryResult =
        Option.none ∨
      ∃ r, (mainRun fs2 subst2 lookup2 g2 e2 b2 env2).2.2 =
        MainResult.uploaded r) := by
  have key :
      (mainRun fs subst lookup getPathToFile endpointFor breakAt env).2.2 =
        MainResult.skipped ∧
      (mainRun fs subst lookup getPathToFile endpointFor breakAt
        env).1.summaryResult = Option.none ∧
      (mainRun fs subst lookup getPathToFile endpointFor breakAt
        env).1.scriptName = env.scriptName ∧
      (mainRun fs subst lookup getPathToFile endpointFor breakAt
        env).1.scriptUploaded = env.scriptUploaded := by
    by_cases hc : env.scriptCategory = "" <;>
      unfold mainRun <;>
      simp [h1, hc, h2, h3]
  refine ⟨key.1, key.2.1, key.2.2.1, key.2.2.2, ?_⟩
  intro fs2 subst2 lookup2 g2 e2 b2 env2
  unfold mainRun
  rcases hres : (if containsSlash env2.scriptPath then some env2.scriptPath
      else g2 env2.scriptPath) with _ | path
  · simp [hres]
  · simp only [hres]
    split_ifs <;>
      first
        | (split <;> simp)
        | simp

/-- C10 witness: the skip frame theorem applied at an environment carrying
a stale summary result and a stale uploaded flag from an earlier
invocation: the skipped run deletes the summary. -/
theorem skip_frame_no_summary_witness :
    envStale.summaryResult ≠ Option.none ∧
    (mainRun (fun _ => some "echo ok") (fun s => s) (fun _ _ => 17)
      (fun _ => Option.none) (fun _ => "api/v1/scripts") (fun _ => true)
      envStale).1.summaryResult = Option.none :=
  ⟨by decide,
    (skip_frame_no_summary (fun _ => some "echo ok") (fun s => s)
      (fun _ _ => 17) (fun _ => Option.none) (fun _ => "api/v1/scripts")
      (fun _ => true) envStale (by decide) (by decide) (by decide)).2.1⟩

/-- C4 witness: the backoff floor evaluated at the two concrete configured
sleeps named by the claim. -/
theorem backoff_floor_is_max_witness :
    effectiveSleep 5 = 30 ∧ effectiveSleep 45 = 45 :=
  ⟨(backoff_floor_is_max 5).2.1, (backoff_floor_is_max 45).2.2⟩

end JamfScriptUploader
